import Mathlib

/-!
Verification of the native monitors of `pywinwatcher` (`filemon.py`,
`regmon.py`): a shallow embedding of `FileMonitorAPI` and
`RegistryMonitorAPI`.  OS interactions (kernel handles, wait results,
completed-transfer sizes, decoded buffer records, clock readings) are
supplied by explicit oracle arguments; fallible OS calls
(`CreateFile`, `RegOpenKeyEx`, `GetOverlappedResult`,
`GetFinalPathNameByHandle`, `ReadDirectoryChangesW`,
`RegNotifyChangeKeyValue`) have `Except`/`Option` oracle results so
their Python-level exception escapes are modelled.  Every embedded
operation also returns the trace of OS calls it issued, so
resource-touching order and call arguments can be reasoned about.
Machine words (DWORD action codes, win32 flag constants, handles) are
modelled as `Nat`; Python exceptions are modelled by an explicit error
type.
-/

set_option maxRecDepth 4096

/-- Result of `win32event.WaitForSingleObject`, as the Python code branches
on it: `WAIT_OBJECT_0`, `WAIT_TIMEOUT`, `WAIT_FAILED`, `WAIT_ABANDONED`. -/
inductive WaitCode where
  | waitObject0
  | waitTimeout
  | waitFailed
  | waitAbandoned
deriving Repr, DecidableEq

/-- Argument actually passed to `win32api.CloseHandle`.  The source passes
either a numeric kernel handle or — in `FileMonitorAPI.close` — the path
*string* `self._kwargs['Path']`. -/
inductive CloseArg where
  | handle (h : Nat)
  | pathString (s : String)
deriving Repr, DecidableEq

/-- One OS call made by the monitors, with the arguments the source passes. -/
inductive OSCall where
  | waitForSingleObject (hHandle : Nat) (timeoutMillis : Option Nat)
  | getOverlappedResult (hFile : Nat)
  | getFinalPathNameByHandle (hFile : Nat)
  | readDirectoryChangesW (hDir : Nat) (bufSize : Nat) (bWatchSubtree : Bool)
      (dwNotifyFilter : Option Nat)
  | regNotifyChangeKeyValue (hKey : Nat) (bWatchSubtree : Bool)
      (dwNotifyFilter : Option Nat) (hEvent : Nat) (fAsynchronous : Bool)
  | closeHandle (arg : CloseArg)
  | regCloseKey (hKey : Nat)
  | createFile (fileName : String) (desiredAccess : Nat) (shareMode : Nat)
      (creationDisposition : Nat) (flagsAndAttributes : Nat)
  | createEvent (bManualReset : Bool) (bInitialState : Bool)
  | regOpenKeyEx (hKey : Option Nat) (subKey : String) (reserved : Nat)
      (samDesired : Nat)
  | allocateReadBuffer (size : Nat)
deriving Repr, DecidableEq

/-- Python exceptions observable from the two modules.
`pywintypesError` is an uncaught `pywintypes.error` escaping from an OS
call made outside any matching `try`/`except` (it carries the
`winerror` code). -/
inductive PyErr where
  | fileMonitorError (msg : String)
  | registryMonitorError (msg : String)
  | keyError (key : String)
  | typeError
  | pywintypesError (winerror : Nat)
deriving Repr, DecidableEq

/-- Outcome of an `update()` call: normal return, a raised exception
(with the state as mutated so far), or the wait-result oracle ran dry
(the Python loop would still be spinning). -/
inductive UpdateOutcome (σ : Type) where
  | ok (st : σ)
  | raised (e : PyErr) (st : σ)
  | spinning
deriving Repr, DecidableEq

/-! ### win32 constants used by the source -/

def FILE_LIST_DIRECTORY : Nat := 0x0001
def FILE_SHARE_READ : Nat := 0x00000001
def FILE_SHARE_WRITE : Nat := 0x00000002
def OPEN_EXISTING : Nat := 3
def FILE_FLAG_BACKUP_SEMANTICS : Nat := 0x02000000
def FILE_FLAG_OVERLAPPED : Nat := 0x40000000
def FILE_NOTIFY_CHANGE_FILE_NAME : Nat := 0x00000001
def FILE_NOTIFY_CHANGE_DIR_NAME : Nat := 0x00000002
def FILE_NOTIFY_CHANGE_LAST_WRITE : Nat := 0x00000010
def REG_NOTIFY_CHANGE_NAME : Nat := 0x00000001
def REG_NOTIFY_CHANGE_LAST_SET : Nat := 0x00000004
def KEY_NOTIFY : Nat := 0x0010
def HKEY_CLASSES_ROOT : Nat := 0x80000000
def HKEY_CURRENT_USER : Nat := 0x80000001
def HKEY_LOCAL_MACHINE : Nat := 0x80000002
def HKEY_USERS : Nat := 0x80000003
def HKEY_CURRENT_CONFIG : Nat := 0x80000005

/-- Python `kwargs[k]` lookup on a keyword-argument association list
(`none` models a `KeyError`). -/
def lookupKw (kwargs : List (String × String)) (k : String) : Option String :=
  (kwargs.find? (fun p => p.1 == k)).map Prod.snd

/-! ### File monitor (`filemon.py`) -/

/-- The `_event_properties` dict of `FileMonitor`; every value starts as
`None`.  Timestamps are opaque `Nat` instants. -/
structure FileEventProps where
  Drive : Option String
  Path : Option String
  FileName : Option String
  Extension : Option String
  Timestamp : Option Nat
  EventType : Option String
deriving Repr, DecidableEq

/-- All-`None` initial `_event_properties` dict. -/
def FileEventProps.initial : FileEventProps :=
  ⟨none, none, none, none, none, none⟩

/-- State of a constructed `FileMonitorAPI`: the open directory handle,
the notification event handle (`self._overlapped.hEvent`), the filter
string, the stored kwargs, `self._num_bytes_returned` and the event dict. -/
structure FileMonState where
  directory : Nat
  hEvent : Nat
  notifyFilter : String
  kwargs : List (String × String)
  numBytesReturned : Nat
  eventProps : FileEventProps
deriving Repr, DecidableEq

/-- `valid_kwargs` tuple in `FileMonitor.__init__`. -/
def fileValidKwargs : List String := ["Drive", "Path", "FileName", "Extension"]

/-- `valid_notify_filter` tuple in `FileMonitorAPI.__init__`. -/
def fileValidNotifyFilters : List String :=
  ["FileNameChange", "DirNameChange", "LastWriteChange", "UnionChange"]

/-- The `for key in kwargs` validation loop of `FileMonitor.__init__`
passes iff every key is in `valid_kwargs`. -/
def fileKwargsValid (kwargs : List (String × String)) : Bool :=
  kwargs.all (fun p => fileValidKwargs.contains p.1)

/-- Message of the invalid-kwargs `FileMonitorError` (two adjacent Python
string literals concatenate with no separator). -/
def fileKwargErrMsg : String :=
  "Watcher installation error.Invalid parameters of the file access."

/-- Message of the invalid-filter `FileMonitorError` of `FileMonitorAPI`. -/
def fileFilterErrMsg (nf : String) : String :=
  "Watcher installation error.The notify_filter value cannot be: \"" ++
    nf ++ "\"."

/-- `FileMonitorAPI._get_notify_filter_const`. -/
def FileMonitorAPI.getNotifyFilterConst (nf : String) : Option Nat :=
  if nf = "FileNameChange" then some FILE_NOTIFY_CHANGE_FILE_NAME
  else if nf = "DirNameChange" then some FILE_NOTIFY_CHANGE_DIR_NAME
  else if nf = "LastWriteChange" then some FILE_NOTIFY_CHANGE_LAST_WRITE
  else if nf = "UnionChange" then
    some (FILE_NOTIFY_CHANGE_FILE_NAME ||| FILE_NOTIFY_CHANGE_DIR_NAME |||
      FILE_NOTIFY_CHANGE_LAST_WRITE)
  else none

/-- The `_ACTIONS` class dict of `FileMonitorAPI` as a partial map on the
DWORD action code. -/
def FileMonitorAPI.ACTIONS (code : Nat) : Option String :=
  if code = 0x00000000 then some "Unknown action"
  else if code = 0x00000001 then some "Added"
  else if code = 0x00000002 then some "Removed"
  else if code = 0x00000003 then some "Modified"
  else if code = 0x00000004 then some "Renamed from file or directory"
  else if code = 0x00000005 then some "Renamed to file or directory"
  else none

/-- `self._ACTIONS.get(code, 'Uncnown')` — note the source's misspelled
default string. -/
def FileMonitorAPI.actionsGet (code : Nat) : String :=
  (FileMonitorAPI.ACTIONS code).getD "Uncnown"

/-- `FileMonitorAPI._get_event_type`: `firstRecordAction` is the decoded
action DWORD of the first `FILE_NOTIFY_INFORMATION` record in the buffer. -/
def FileMonitorAPI.getEventType (numBytesReturned : Nat)
    (firstRecordAction : Nat) : String :=
  if numBytesReturned ≠ 0 then FileMonitorAPI.actionsGet firstRecordAction
  else ""

/-- `FileMonitorAPI._get_path`: `finalPathFromHandle` is what
`win32file.GetFinalPathNameByHandle` returns for the directory handle
(the call itself is issued, and can fail, only when the byte count is
nonzero; that is modelled at the `update` call site). -/
def FileMonitorAPI.getPath (numBytesReturned : Nat)
    (finalPathFromHandle : String) : String :=
  if numBytesReturned ≠ 0 then finalPathFromHandle else ""

/-- `FileMonitorAPI._get_file_name`: `firstRecordName` is the file-name
field of the first `FILE_NOTIFY_INFORMATION` record in the buffer. -/
def FileMonitorAPI.getFileName (numBytesReturned : Nat)
    (firstRecordName : String) : String :=
  if numBytesReturned ≠ 0 then firstRecordName else ""

/-- Kernel responses consumed by `FileMonitorAPI.__init__`: the result of
`CreateFile` (`Except` error code / handle), the handle returned by
`CreateEvent` (`0` models a falsy handle, which the source checks), and
whether the initial `ReadDirectoryChangesW` arm fails (`some winerror`
models a `pywintypes.error` raised by the call — `_set_watcher` has no
`try`/`except` in `filemon.py`, so it escapes `__init__` uncaught). -/
structure FileInitOracle where
  createFileResult : Except Nat Nat
  createEventHandle : Nat
  armWinerror : Option Nat
deriving Repr

/-- The `CreateFile` call of `FileMonitorAPI.__init__` with the argument
values the source passes. -/
def FileMonitorAPI.createFileCall (path : String) : OSCall :=
  OSCall.createFile path FILE_LIST_DIRECTORY
    (FILE_SHARE_READ ||| FILE_SHARE_WRITE) OPEN_EXISTING
    (FILE_FLAG_BACKUP_SEMANTICS ||| FILE_FLAG_OVERLAPPED)

/-- `FileMonitorAPI._set_watcher`: the `ReadDirectoryChangesW` arm request
(1024-byte buffer, watch-subtree true, filter constant). -/
def FileMonitorAPI.setWatcherCall (st : FileMonState) : OSCall :=
  OSCall.readDirectoryChangesW st.directory 1024 true
    (FileMonitorAPI.getNotifyFilterConst st.notifyFilter)

/-- `FileMonitorAPI.__init__` (including the `FileMonitor.__init__` base
call): validates kwargs, validates the filter, opens the directory,
creates the event, allocates the buffer, arms the watcher (a failing arm
raises an uncaught `pywintypes.error`).  Returns the OS-call trace and
either the constructed state or the raised exception. -/
def FileMonitorAPI.init (notifyFilter : String)
    (kwargs : List (String × String)) (os : FileInitOracle) :
    List OSCall × Except PyErr FileMonState :=
  if ¬ fileKwargsValid kwargs then
    ([], Except.error (PyErr.fileMonitorError fileKwargErrMsg))
  else if ¬ fileValidNotifyFilters.contains notifyFilter then
    ([], Except.error (PyErr.fileMonitorError (fileFilterErrMsg notifyFilter)))
  else
    match lookupKw kwargs "Path" with
    | none => ([], Except.error (PyErr.keyError "Path"))
    | some path =>
      match os.createFileResult with
      | Except.error winerror =>
        ([FileMonitorAPI.createFileCall path],
         Except.error (PyErr.fileMonitorError
           ("Failed to open directory. Error code: " ++ toString winerror ++ ".")))
      | Except.ok dirHandle =>
        if os.createEventHandle = 0 then
          ([FileMonitorAPI.createFileCall path,
            OSCall.createEvent false false],
           Except.error (PyErr.fileMonitorError
             ("Failed to create event. Error code: " ++
               toString os.createEventHandle ++ ".")))
        else
          match os.armWinerror with
          | some w =>
            ([FileMonitorAPI.createFileCall path,
              OSCall.createEvent false false,
              OSCall.allocateReadBuffer 1024,
              FileMonitorAPI.setWatcherCall
                { directory := dirHandle
                  hEvent := os.createEventHandle
                  notifyFilter := notifyFilter
                  kwargs := kwargs
                  numBytesReturned := 0
                  eventProps := FileEventProps.initial }],
             Except.error (PyErr.pywintypesError w))
          | none =>
            ([FileMonitorAPI.createFileCall path,
              OSCall.createEvent false false,
              OSCall.allocateReadBuffer 1024,
              FileMonitorAPI.setWatcherCall
                { directory := dirHandle
                  hEvent := os.createEventHandle
                  notifyFilter := notifyFilter
                  kwargs := kwargs
                  numBytesReturned := 0
                  eventProps := FileEventProps.initial }],
             Except.ok
               { directory := dirHandle
                 hEvent := os.createEventHandle
                 notifyFilter := notifyFilter
                 kwargs := kwargs
                 numBytesReturned := 0
                 eventProps := FileEventProps.initial })

/-- `FileMonitorAPI.close`: the source passes `self._kwargs['Path']` — the
path *string*, not the directory handle — to `win32api.CloseHandle`,
which rejects a string argument with a `TypeError`; the second
`CloseHandle` (on the event handle) is never reached. -/
def FileMonitorAPI.close (st : FileMonState) : List OSCall × Option PyErr :=
  match lookupKw st.kwargs "Path" with
  | none => ([], some (PyErr.keyError "Path"))
  | some p => ([OSCall.closeHandle (CloseArg.pathString p)],
      some PyErr.typeError)

/-- Kernel responses consumed by one `FileMonitorAPI.update` call:
the `GetOverlappedResult` outcome (a `pywintypes.error` escape or the
transferred byte count), the first decoded buffer record, the
`GetFinalPathNameByHandle` outcome, the timestamp read, and whether the
rearm `ReadDirectoryChangesW` fails (`some winerror`); none of these
calls sits inside a `try`/`except` in `update()`, so each failure
escapes as an uncaught `pywintypes.error`. -/
structure FileUpdateOracle where
  bytesReturned : Except Nat Nat
  firstRecordAction : Nat
  firstRecordName : String
  finalPath : Except Nat String
  now : Nat
  armWinerror : Option Nat
deriving Repr

/-- The event-dict writes of the signaled branch of
`FileMonitorAPI.update`: `Path`, `FileName`, `Timestamp`, `EventType`
(plus the earlier `self._num_bytes_returned` assignment). -/
def FileMonitorAPI.storeEvent (os : FileUpdateOracle) (bytes : Nat)
    (finalPath : String) (st : FileMonState) : FileMonState :=
  { st with
    numBytesReturned := bytes
    eventProps := { st.eventProps with
      Path := some (FileMonitorAPI.getPath bytes finalPath)
      FileName := some (FileMonitorAPI.getFileName bytes os.firstRecordName)
      Timestamp := some os.now
      EventType := some (FileMonitorAPI.getEventType bytes
        os.firstRecordAction) } }

/-- The `while True` poll loop of `FileMonitorAPI.update`, one oracle wait
result per `WaitForSingleObject(self._overlapped.hEvent, 0)` call.  The
signaled branch runs `GetOverlappedResult` (whose failure escapes with
the byte-count assignment not made), then `_get_path` — which issues
`GetFinalPathNameByHandle` only for a nonzero byte count, so the zero
and nonzero cases are rendered separately (a failure there escapes
after `self._num_bytes_returned` was assigned) — then the dict writes,
then the rearm `_set_watcher` (whose failure escapes after all writes). -/
def FileMonitorAPI.updateLoop (os : FileUpdateOracle) (st : FileMonState) :
    List WaitCode → List OSCall × UpdateOutcome FileMonState
  | [] => ([], UpdateOutcome.spinning)
  | r :: rest =>
    match r with
    | WaitCode.waitObject0 =>
      match os.bytesReturned with
      | Except.error winerror =>
        ([OSCall.waitForSingleObject st.hEvent (some 0),
          OSCall.getOverlappedResult st.directory],
         UpdateOutcome.raised (PyErr.pywintypesError winerror) st)
      | Except.ok bytes =>
        if bytes = 0 then
          match os.armWinerror with
          | some w =>
            ([OSCall.waitForSingleObject st.hEvent (some 0),
              OSCall.getOverlappedResult st.directory,
              FileMonitorAPI.setWatcherCall
                (FileMonitorAPI.storeEvent os bytes "" st)],
             UpdateOutcome.raised (PyErr.pywintypesError w)
               (FileMonitorAPI.storeEvent os bytes "" st))
          | none =>
            ([OSCall.waitForSingleObject st.hEvent (some 0),
              OSCall.getOverlappedResult st.directory,
              FileMonitorAPI.setWatcherCall
                (FileMonitorAPI.storeEvent os bytes "" st)],
             UpdateOutcome.ok (FileMonitorAPI.storeEvent os bytes "" st))
        else
          match os.finalPath with
          | Except.error winerror =>
            ([OSCall.waitForSingleObject st.hEvent (some 0),
              OSCall.getOverlappedResult st.directory,
              OSCall.getFinalPathNameByHandle st.directory],
             UpdateOutcome.raised (PyErr.pywintypesError winerror)
               { st with numBytesReturned := bytes })
          | Except.ok finalPath =>
            match os.armWinerror with
            | some w =>
              ([OSCall.waitForSingleObject st.hEvent (some 0),
                OSCall.getOverlappedResult st.directory,
                OSCall.getFinalPathNameByHandle st.directory,
                FileMonitorAPI.setWatcherCall
                  (FileMonitorAPI.storeEvent os bytes finalPath st)],
               UpdateOutcome.raised (PyErr.pywintypesError w)
                 (FileMonitorAPI.storeEvent os bytes finalPath st))
            | none =>
              ([OSCall.waitForSingleObject st.hEvent (some 0),
                OSCall.getOverlappedResult st.directory,
                OSCall.getFinalPathNameByHandle st.directory,
                FileMonitorAPI.setWatcherCall
                  (FileMonitorAPI.storeEvent os bytes finalPath st)],
               UpdateOutcome.ok (FileMonitorAPI.storeEvent os bytes finalPath st))
    | WaitCode.waitFailed =>
      let c := FileMonitorAPI.close st
      (OSCall.waitForSingleObject st.hEvent (some 0) :: c.1,
       match c.2 with
       | some e => UpdateOutcome.raised e st
       | none => UpdateOutcome.raised (PyErr.fileMonitorError "") st)
    | _ =>
      let t := FileMonitorAPI.updateLoop os st rest
      (OSCall.waitForSingleObject st.hEvent (some 0) :: t.1, t.2)

/-- `FileMonitorAPI.update`. -/
def FileMonitorAPI.update (waits : List WaitCode) (os : FileUpdateOracle)
    (st : FileMonState) : List OSCall × UpdateOutcome FileMonState :=
  FileMonitorAPI.updateLoop os st waits

/-! ### Registry monitor (`regmon.py`) -/

/-- The `_event_properties` dict of `RegistryMonitor`. -/
structure RegEventProps where
  Hive : Option String
  RootPath : Option String
  KeyPath : Option String
  ValueName : Option String
  Timestamp : Option Nat
  EventType : Option String
deriving Repr, DecidableEq

/-- All-`None` initial `_event_properties` dict. -/
def RegEventProps.initial : RegEventProps :=
  ⟨none, none, none, none, none, none⟩

/-- State of a constructed `RegistryMonitorAPI`: the notification event
handle (`self._event`), the open key handle (`self._key`), the filter
string, the stored kwargs and the event dict. -/
structure RegMonState where
  event : Nat
  key : Nat
  notifyFilter : String
  kwargs : List (String × String)
  eventProps : RegEventProps
deriving Repr, DecidableEq

/-- `valid_kwargs` tuple in `RegistryMonitor.__init__`. -/
def regValidKwargs : List String := ["Hive", "RootPath", "KeyPath", "ValueName"]

/-- `valid_notify_filter` tuple in `RegistryMonitorAPI.__init__`. -/
def regValidNotifyFilters : List String :=
  ["NameChange", "LastSetChange", "UnionChange"]

/-- The `for key in kwargs` validation loop of `RegistryMonitor.__init__`
passes iff every key is in `valid_kwargs`. -/
def regKwargsValid (kwargs : List (String × String)) : Bool :=
  kwargs.all (fun p => regValidKwargs.contains p.1)

/-- Message of the invalid-kwargs `RegistryMonitorError`. -/
def regKwargErrMsg : String :=
  "Watcher installation error.Invalid parameters of the registry access."

/-- Message of the invalid-filter `RegistryMonitorError` of
`RegistryMonitorAPI`. -/
def regFilterErrMsg (nf : String) : String :=
  "Watcher installation error.The notify_filter value cannot be: \"" ++
    nf ++ "\"."

/-- Message of the `RegistryMonitorError` re-raised by
`RegistryMonitorAPI._set_watcher` when `RegNotifyChangeKeyValue` raises
a `pywintypes.error` (regmon.py lines 254-259). -/
def regInvalidParamsMsg (winerror : Nat) : String :=
  "Watcher installation error.Invalid parameters. Error code: " ++
    toString winerror ++ "."

/-- `RegistryMonitorAPI._get_notify_filter_const`. -/
def RegistryMonitorAPI.getNotifyFilterConst (nf : String) : Option Nat :=
  if nf = "NameChange" then some REG_NOTIFY_CHANGE_NAME
  else if nf = "LastSetChange" then some REG_NOTIFY_CHANGE_LAST_SET
  else if nf = "UnionChange" then
    some (REG_NOTIFY_CHANGE_NAME ||| REG_NOTIFY_CHANGE_LAST_SET)
  else none

/-- `RegistryMonitorAPI._get_hive_const`, given the already-looked-up
`Hive` kwarg string (the `self._kwargs['Hive']` lookup itself is modelled
at the call site, where its `KeyError` can escape). -/
def RegistryMonitorAPI.getHiveConst (hive : String) : Option Nat :=
  if hive = "HKEY_CLASSES_ROOT" then some HKEY_CLASSES_ROOT
  else if hive = "HKEY_CURRENT_USER" then some HKEY_CURRENT_USER
  else if hive = "HKEY_LOCAL_MACHINE" then some HKEY_LOCAL_MACHINE
  else if hive = "HKEY_USERS" then some HKEY_USERS
  else if hive = "HKEY_CURRENT_CONFIG" then some HKEY_CURRENT_CONFIG
  else none

/-- Kernel responses consumed by `RegistryMonitorAPI.__init__`: the
handle returned by `CreateEvent` (`0` models falsy), the result of
`RegOpenKeyEx`, and whether the initial `RegNotifyChangeKeyValue` arm
fails (`some winerror` models a `pywintypes.error` which `_set_watcher`
catches and re-raises as a messaged `RegistryMonitorError`). -/
structure RegInitOracle where
  createEventHandle : Nat
  regOpenKeyResult : Except Nat Nat
  armWinerror : Option Nat
deriving Repr

/-- `RegistryMonitorAPI._set_watcher`: the `RegNotifyChangeKeyValue` arm
request (watch-subtree true, asynchronous true). -/
def RegistryMonitorAPI.setWatcherCall (st : RegMonState) : OSCall :=
  OSCall.regNotifyChangeKeyValue st.key true
    (RegistryMonitorAPI.getNotifyFilterConst st.notifyFilter) st.event true

/-- `RegistryMonitorAPI.__init__` (including the `RegistryMonitor.__init__`
base call): validates kwargs, validates the filter, creates the event,
opens the key (evaluating `self._get_hive_const()` — whose missing-`Hive`
lookup raises a bare `KeyError` — then `self._kwargs['KeyPath']`), and
arms the watcher; a failing arm is re-raised by `_set_watcher` as a
messaged `RegistryMonitorError`. -/
def RegistryMonitorAPI.init (notifyFilter : String)
    (kwargs : List (String × String)) (os : RegInitOracle) :
    List OSCall × Except PyErr RegMonState :=
  if ¬ regKwargsValid kwargs then
    ([], Except.error (PyErr.registryMonitorError regKwargErrMsg))
  else if ¬ regValidNotifyFilters.contains notifyFilter then
    ([], Except.error (PyErr.registryMonitorError (regFilterErrMsg notifyFilter)))
  else if os.createEventHandle = 0 then
    ([OSCall.createEvent false false],
     Except.error (PyErr.registryMonitorError
       ("Watcher installation error.Failed to create event. Error code: " ++
         toString os.createEventHandle ++ ".")))
  else
    match lookupKw kwargs "Hive" with
    | none => ([OSCall.createEvent false false],
        Except.error (PyErr.keyError "Hive"))
    | some hive =>
      match lookupKw kwargs "KeyPath" with
      | none => ([OSCall.createEvent false false],
          Except.error (PyErr.keyError "KeyPath"))
      | some keyPath =>
        match os.regOpenKeyResult with
        | Except.error winerror =>
          ([OSCall.createEvent false false,
            OSCall.regOpenKeyEx (RegistryMonitorAPI.getHiveConst hive)
              keyPath 0 KEY_NOTIFY],
           Except.error (PyErr.registryMonitorError
             ("Watcher installation error.Failed to open key. Error code: " ++
               toString winerror ++ ".")))
        | Except.ok keyHandle =>
          match os.armWinerror with
          | some w =>
            ([OSCall.createEvent false false,
              OSCall.regOpenKeyEx (RegistryMonitorAPI.getHiveConst hive)
                keyPath 0 KEY_NOTIFY,
              RegistryMonitorAPI.setWatcherCall
                { event := os.createEventHandle
                  key := keyHandle
                  notifyFilter := notifyFilter
                  kwargs := kwargs
                  eventProps := RegEventProps.initial }],
             Except.error (PyErr.registryMonitorError (regInvalidParamsMsg w)))
          | none =>
            ([OSCall.createEvent false false,
              OSCall.regOpenKeyEx (RegistryMonitorAPI.getHiveConst hive)
                keyPath 0 KEY_NOTIFY,
              RegistryMonitorAPI.setWatcherCall
                { event := os.createEventHandle
                  key := keyHandle
                  notifyFilter := notifyFilter
                  kwargs := kwargs
                  eventProps := RegEventProps.initial }],
             Except.ok
               { event := os.createEventHandle
                 key := keyHandle
                 notifyFilter := notifyFilter
                 kwargs := kwargs
                 eventProps := RegEventProps.initial })

/-- `RegistryMonitorAPI.close`: `RegCloseKey(self._key)` then
`CloseHandle(self._event)` — here the real handles are passed. -/
def RegistryMonitorAPI.close (st : RegMonState) : List OSCall × Option PyErr :=
  ([OSCall.regCloseKey st.key, OSCall.closeHandle (CloseArg.handle st.event)],
   none)

/-- Kernel responses consumed by one `RegistryMonitorAPI.update` call:
the timestamp read, and whether the rearm `RegNotifyChangeKeyValue`
fails (`some winerror` models a `pywintypes.error` which `_set_watcher`
catches and re-raises as the messaged `RegistryMonitorError`, escaping
`update()`). -/
structure RegUpdateOracle where
  now : Nat
  armWinerror : Option Nat
deriving Repr, DecidableEq

/-- The event-dict writes of the signaled branch of
`RegistryMonitorAPI.update`: `Hive`, `KeyPath`, `Timestamp`,
`EventType` (the filter string). -/
def RegistryMonitorAPI.storeEvent (os : RegUpdateOracle)
    (hive keyPath : String) (st : RegMonState) : RegMonState :=
  { st with eventProps := { st.eventProps with
    Hive := some hive
    KeyPath := some keyPath
    Timestamp := some os.now
    EventType := some st.notifyFilter } }

/-- The `while True` poll loop of `RegistryMonitorAPI.update`, one oracle
wait result per `WaitForSingleObject(self._event, 0)` call.  On a signal
the source writes `Hive` and `KeyPath` from `self._kwargs` (each lookup
can raise a bare `KeyError`, with the dict writes made so far kept),
then the timestamp and the filter string as `EventType`, then rearms via
`_set_watcher` — whose failure raises the messaged
`RegistryMonitorError` after all the dict writes. -/
def RegistryMonitorAPI.updateLoop (os : RegUpdateOracle) (st : RegMonState) :
    List WaitCode → List OSCall × UpdateOutcome RegMonState
  | [] => ([], UpdateOutcome.spinning)
  | r :: rest =>
    match r with
    | WaitCode.waitObject0 =>
      match lookupKw st.kwargs "Hive" with
      | none => ([OSCall.waitForSingleObject st.event (some 0)],
          UpdateOutcome.raised (PyErr.keyError "Hive") st)
      | some hive =>
        match lookupKw st.kwargs "KeyPath" with
        | none => ([OSCall.waitForSingleObject st.event (some 0)],
            UpdateOutcome.raised (PyErr.keyError "KeyPath")
              { st with eventProps :=
                { st.eventProps with Hive := some hive } })
        | some keyPath =>
          match os.armWinerror with
          | some w =>
            ([OSCall.waitForSingleObject st.event (some 0),
              RegistryMonitorAPI.setWatcherCall
                (RegistryMonitorAPI.storeEvent os hive keyPath st)],
             UpdateOutcome.raised
               (PyErr.registryMonitorError (regInvalidParamsMsg w))
               (RegistryMonitorAPI.storeEvent os hive keyPath st))
          | none =>
            ([OSCall.waitForSingleObject st.event (some 0),
              RegistryMonitorAPI.setWatcherCall
                (RegistryMonitorAPI.storeEvent os hive keyPath st)],
             UpdateOutcome.ok (RegistryMonitorAPI.storeEvent os hive keyPath st))
    | WaitCode.waitFailed =>
      let c := RegistryMonitorAPI.close st
      (OSCall.waitForSingleObject st.event (some 0) :: c.1,
       UpdateOutcome.raised (PyErr.registryMonitorError "") st)
    | _ =>
      let t := RegistryMonitorAPI.updateLoop os st rest
      (OSCall.waitForSingleObject st.event (some 0) :: t.1, t.2)

/-- `RegistryMonitorAPI.update`. -/
def RegistryMonitorAPI.update (os : RegUpdateOracle) (waits : List WaitCode)
    (st : RegMonState) : List OSCall × UpdateOutcome RegMonState :=
  RegistryMonitorAPI.updateLoop os st waits

/-- Runs a sequence of `RegistryMonitorAPI.update` calls (one oracle and
wait-result list per call), threading the state through the calls that
return normally; `none` if any call raises or spins forever. -/
def RegistryMonitorAPI.runUpdates :
    List (RegUpdateOracle × List WaitCode) → RegMonState → Option RegMonState
  | [], st => some st
  | (os, waits) :: rest, st =>
    match (RegistryMonitorAPI.update os waits st).2 with
    | UpdateOutcome.ok st' => RegistryMonitorAPI.runUpdates rest st'
    | _ => none

/-! ### Trace observation helpers -/

/-- The timeout argument of every `WaitForSingleObject` call in a trace,
in order (`none` would be an INFINITE-timeout wait). -/
def waitTimeoutsOf (tr : List OSCall) : List (Option Nat) :=
  tr.filterMap fun c =>
    match c with
    | OSCall.waitForSingleObject _ t => some t
    | _ => none

/-- The `bManualReset` argument of every `CreateEvent` call in a trace. -/
def createEventFlagsOf (tr : List OSCall) : List Bool :=
  tr.filterMap fun c =>
    match c with
    | OSCall.createEvent b _ => some b
    | _ => none

/-- Whether the last call of a trace is the file monitor's arm request
(`ReadDirectoryChangesW`). -/
def endsWithFileArm (tr : List OSCall) : Bool :=
  match tr.getLast? with
  | some (OSCall.readDirectoryChangesW _ _ _ _) => true
  | _ => false

/-- Whether the last call of a trace is the registry monitor's arm
request (`RegNotifyChangeKeyValue`). -/
def endsWithRegArm (tr : List OSCall) : Bool :=
  match tr.getLast? with
  | some (OSCall.regNotifyChangeKeyValue _ _ _ _ _) => true
  | _ => false

/-! ### Helper lemmas -/

/-- A string with a nonempty literal appended is nonempty. -/
lemma append_ne_empty_of_right (s t : String) (h : t.length ≠ 0) :
    s ++ t ≠ "" := by
  intro heq
  have hl := congrArg String.length heq
  rw [String.length_append] at hl
  have hz : ("" : String).length = 0 := rfl
  omega

/-- Characters of a concatenation. -/
lemma dataAppend (s t : String) : (s ++ t).data = s.data ++ t.data := by
  cases s
  cases t
  rfl

/-- Two character lists that differ below the length of a common prefix
position cannot be equal: one-sided version. -/
lemma no_eq_append (p x q : List Char) (i : Nat) (hip : i < p.length)
    (hne : ¬ p[i]? = q[i]?) (h : p ++ x = q) : False := by
  apply hne
  have h2 : (p ++ x)[i]? = q[i]? := by rw [h]
  rw [List.getElem?_append_left hip] at h2
  exact h2

/-- Two character lists that differ below the lengths of their literal
prefixes cannot be equal: two-sided version. -/
lemma no_eq_append2 (p x q y : List Char) (i : Nat) (hip : i < p.length)
    (hiq : i < q.length) (hne : ¬ p[i]? = q[i]?) (h : p ++ x = q ++ y) :
    False := by
  apply hne
  have h2 : (p ++ x)[i]? = (q ++ y)[i]? := by rw [h]
  rw [List.getElem?_append_left hip, List.getElem?_append_left hiq] at h2
  exact h2

/-- The rearm-failure message differs from the invalid-kwargs validation
message for every error code (they diverge at character 45:
full stop versus space after "Invalid parameters"). -/
lemma regInvalidParamsMsg_ne_kwarg (w : Nat) :
    regInvalidParamsMsg w ≠ regKwargErrMsg := by
  intro h
  have hd := congrArg String.data h
  unfold regInvalidParamsMsg regKwargErrMsg at hd
  simp only [dataAppend, List.append_assoc] at hd
  exact no_eq_append _ _ _ 45 (by decide) (by decide) hd

/-- The rearm-failure message differs from every invalid-filter
validation message (they diverge at character 27: the letter after
"Watcher installation error."). -/
lemma regInvalidParamsMsg_ne_filter (w : Nat) (f : String) :
    regInvalidParamsMsg w ≠ regFilterErrMsg f := by
  intro h
  have hd := congrArg String.data h
  unfold regInvalidParamsMsg regFilterErrMsg at hd
  simp only [dataAppend, List.append_assoc] at hd
  exact no_eq_append2 _ _ _ _ 27 (by decide) (by decide) (by decide) hd

/-- Prepending a call keeps a trace ending in the file arm request. -/
lemma endsWithFileArm_cons (c : OSCall) (tr : List OSCall)
    (h : endsWithFileArm tr = true) : endsWithFileArm (c :: tr) = true := by
  cases tr with
  | nil => simp [endsWithFileArm] at h
  | cons a l =>
    unfold endsWithFileArm at h ⊢
    rw [List.getLast?_cons_cons]
    exact h

/-- Prepending a call keeps a trace ending in the registry arm request. -/
lemma endsWithRegArm_cons (c : OSCall) (tr : List OSCall)
    (h : endsWithRegArm tr = true) : endsWithRegArm (c :: tr) = true := by
  cases tr with
  | nil => simp [endsWithRegArm] at h
  | cons a l =>
    unfold endsWithRegArm at h ⊢
    rw [List.getLast?_cons_cons]
    exact h

/-! ### Claim theorems -/

/-- C1: evaluation of `FileMonitorAPI.update` at a `WAIT_FAILED` wait
result.  The claim says `close()` closes the open directory handle and
the notification event handle and then `FileMonitorError` is raised.
The code instead passes the path *string* `self._kwargs['Path']` to
`win32api.CloseHandle` — contradicting `close()`'s own docstring "Close
the open directory and event handles" — so `CloseHandle` rejects the
argument with a `TypeError`: the directory handle `self._directory` is
never closed, the event handle close is never reached, and
`FileMonitorError` is never raised. -/
theorem C1_update_failed_close_bug (d ev nbr : Nat) (nf p : String)
    (ks : List (String × String)) (props : FileEventProps)
    (rest : List WaitCode) (os : FileUpdateOracle) :
    FileMonitorAPI.update (WaitCode.waitFailed :: rest) os
      { directory := d, hEvent := ev, notifyFilter := nf,
        kwargs := ("Path", p) :: ks, numBytesReturned := nbr,
        eventProps := props } =
    ([OSCall.waitForSingleObject ev (some 0),
      OSCall.closeHandle (CloseArg.pathString p)],
     UpdateOutcome.raised PyErr.typeError
      { directory := d, hEvent := ev, notifyFilter := nf,
        kwargs := ("Path", p) :: ks, numBytesReturned := nbr,
        eventProps := props }) := by
  simp [FileMonitorAPI.update, FileMonitorAPI.updateLoop,
    FileMonitorAPI.close, lookupKw, List.find?]

/-- C2 counterexample: the claim maps both code `0` and every code
outside `{0,...,5}` to the single label `Unknown`; on the code the two
are *different* strings — `0` decodes to `"Unknown action"` while any
out-of-range code decodes to the misspelled default `"Uncnown"`. -/
theorem C2_counterexample :
    FileMonitorAPI.actionsGet 6 ≠ FileMonitorAPI.actionsGet 0 ∧
    FileMonitorAPI.actionsGet 0 = "Unknown action" ∧
    FileMonitorAPI.actionsGet 6 = "Uncnown" := by
  refine ⟨?_, rfl, rfl⟩
  decide

/-- C2 amended: the action-code decoding is a total deterministic
function on the action DWORD: `1 ↦ "Added"`, `2 ↦ "Removed"`,
`3 ↦ "Modified"`, `4 ↦ "Renamed from file or directory"`,
`5 ↦ "Renamed to file or directory"`, `0 ↦ "Unknown action"`, and every
other code maps to the (distinct, misspelled) default string
`"Uncnown"`; for a nonzero byte count `_get_event_type` returns exactly
this decoding of the first record's action code. -/
theorem C2_action_decode :
    (∀ code : Nat,
      FileMonitorAPI.actionsGet code =
        if code = 0 then "Unknown action"
        else if code = 1 then "Added"
        else if code = 2 then "Removed"
        else if code = 3 then "Modified"
        else if code = 4 then "Renamed from file or directory"
        else if code = 5 then "Renamed to file or directory"
        else "Uncnown") ∧
    (∀ numBytes action : Nat,
      FileMonitorAPI.getEventType (numBytes + 1) action =
        FileMonitorAPI.actionsGet action) := by
  constructor
  · intro code
    unfold FileMonitorAPI.actionsGet FileMonitorAPI.ACTIONS
    split_ifs <;> rfl
  · intro numBytes action
    simp [FileMonitorAPI.getEventType]

/-- C3 counterexample: one `RegistryMonitorAPI.update` call at a concrete
state, with the kernel reporting one timeout then a signal, performs
*two* `WaitForSingleObject` calls, each with timeout `0` — not exactly
one indefinite-timeout wait (which would be the single timeout argument
`none`). -/
theorem C3_counterexample :
    ¬ (waitTimeoutsOf (RegistryMonitorAPI.update ⟨42, none⟩
        [WaitCode.waitTimeout, WaitCode.waitObject0]
        { event := 5, key := 6, notifyFilter := "UnionChange",
          kwargs := [("Hive", "HKEY_LOCAL_MACHINE"), ("KeyPath", "SOFTWARE")],
          eventProps := RegEventProps.initial }).1
      = [(none : Option Nat)]) ∧
    waitTimeoutsOf (RegistryMonitorAPI.update ⟨42, none⟩
        [WaitCode.waitTimeout, WaitCode.waitObject0]
        { event := 5, key := 6, notifyFilter := "UnionChange",
          kwargs := [("Hive", "HKEY_LOCAL_MACHINE"), ("KeyPath", "SOFTWARE")],
          eventProps := RegEventProps.initial }).1
      = [some 0, some 0] := by
  have h : waitTimeoutsOf (RegistryMonitorAPI.update ⟨42, none⟩
        [WaitCode.waitTimeout, WaitCode.waitObject0]
        { event := 5, key := 6, notifyFilter := "UnionChange",
          kwargs := [("Hive", "HKEY_LOCAL_MACHINE"), ("KeyPath", "SOFTWARE")],
          eventProps := RegEventProps.initial }).1
      = [some 0, some 0] := rfl
  refine ⟨?_, h⟩
  rw [h]
  decide

/-- C3 amended: `RegistryMonitorAPI.update` busy-polls exactly like the
file monitor: a `while` loop of zero-timeout `WaitForSingleObject` calls
on the notification handle, one per iteration, until a `Signaled` or
`Failed` result is observed — not a single indefinite-timeout wait. -/
theorem C3_zero_timeout_poll_loop (os : RegUpdateOracle) (n : Nat)
    (st : RegMonState) (rest : List WaitCode) :
    waitTimeoutsOf (RegistryMonitorAPI.update os
      (List.replicate n WaitCode.waitTimeout ++ WaitCode.waitObject0 :: rest)
      st).1 = List.replicate (n + 1) (some 0) ∧
    waitTimeoutsOf (RegistryMonitorAPI.update os
      (List.replicate n WaitCode.waitTimeout ++ [WaitCode.waitFailed])
      st).1 = List.replicate (n + 1) (some 0) := by
  induction n with
  | zero =>
    constructor
    · simp only [List.replicate, List.nil_append, RegistryMonitorAPI.update,
        RegistryMonitorAPI.updateLoop]
      cases hh : lookupKw st.kwargs "Hive" with
      | none => simp [waitTimeoutsOf]
      | some hive =>
        cases hk : lookupKw st.kwargs "KeyPath" with
        | none => simp [waitTimeoutsOf]
        | some keyPath =>
          cases ha : os.armWinerror with
          | none => simp [RegistryMonitorAPI.setWatcherCall, waitTimeoutsOf]
          | some w => simp [RegistryMonitorAPI.setWatcherCall, waitTimeoutsOf]
    · simp [RegistryMonitorAPI.update, RegistryMonitorAPI.updateLoop,
        RegistryMonitorAPI.close, waitTimeoutsOf]
  | succ m ih =>
    have hrep : List.replicate (m + 1) WaitCode.waitTimeout =
        WaitCode.waitTimeout :: List.replicate m WaitCode.waitTimeout :=
      List.replicate_succ _ _
    constructor
    · rw [hrep]
      simp only [List.cons_append, RegistryMonitorAPI.update,
        RegistryMonitorAPI.updateLoop]
      have := ih.1
      simp only [RegistryMonitorAPI.update] at this
      simp [waitTimeoutsOf, List.filterMap_cons] at this ⊢
      rw [List.replicate_succ]
      simp [this]
    · rw [hrep]
      simp only [List.cons_append, RegistryMonitorAPI.update,
        RegistryMonitorAPI.updateLoop]
      have := ih.2
      simp only [RegistryMonitorAPI.update] at this
      simp [waitTimeoutsOf, List.filterMap_cons] at this ⊢
      rw [List.replicate_succ]
      simp [this]

/-- C7: a completed read with a zero byte count decodes to the empty
string for both the path and the file name; `_get_path` and
`_get_file_name` are total functions — no exception path exists. -/
theorem C7_zero_bytes_empty_decode (finalPath firstName : String) :
    FileMonitorAPI.getPath 0 finalPath = "" ∧
    FileMonitorAPI.getFileName 0 firstName = "" := by
  exact ⟨rfl, rfl⟩

/-- C9: an `update()` that observes a signal whose transferred byte count
is zero still overwrites the whole stored event state — for an arbitrary
previously stored `eventProps`, `Path`, `FileName` and `EventType` become
the empty string and `Timestamp` becomes the fresh reading `now`; the
previous event's attributes are discarded. -/
theorem C9_zero_byte_update_overwrites (d ev nbr : Nat) (nf : String)
    (ks : List (String × String)) (props : FileEventProps)
    (rest : List WaitCode) (act : Nat) (nm : String)
    (fpRes : Except Nat String) (now : Nat) :
    FileMonitorAPI.update (WaitCode.waitObject0 :: rest)
      { bytesReturned := Except.ok 0, firstRecordAction := act,
        firstRecordName := nm, finalPath := fpRes, now := now,
        armWinerror := none }
      { directory := d, hEvent := ev, notifyFilter := nf, kwargs := ks,
        numBytesReturned := nbr, eventProps := props } =
    ([OSCall.waitForSingleObject ev (some 0), OSCall.getOverlappedResult d,
      OSCall.readDirectoryChangesW d 1024 true
        (FileMonitorAPI.getNotifyFilterConst nf)],
     UpdateOutcome.ok
      { directory := d, hEvent := ev, notifyFilter := nf, kwargs := ks,
        numBytesReturned := 0, eventProps :=
          { Drive := props.Drive, Path := some "", FileName := some "",
            Extension := props.Extension, Timestamp := some now,
            EventType := some "" } }) := by
  simp [FileMonitorAPI.update, FileMonitorAPI.updateLoop,
    FileMonitorAPI.storeEvent, FileMonitorAPI.getPath,
    FileMonitorAPI.getFileName, FileMonitorAPI.getEventType,
    FileMonitorAPI.setWatcherCall]

/-- C4 counterexample: in a successful concrete construction of the file
monitor the only `CreateEvent` call passes `bManualReset = False` — an
*auto-reset* event, not the manual-reset event the claim states. -/
theorem C4_counterexample :
    createEventFlagsOf (FileMonitorAPI.init "UnionChange"
      [("Path", "C:\\Windows")] ⟨Except.ok 3, 4, none⟩).1 = [false] ∧
    (false : Bool) ≠ true := by
  exact ⟨rfl, by decide⟩

/-- C4 amended: *both* monitors create auto-reset, initially
non-signaled notification event handles: every `CreateEvent` call either
construction ever issues has `bManualReset = False` (and
`bInitialState = False`). -/
theorem C4_auto_reset_events :
    (∀ nf ks os tr r, FileMonitorAPI.init nf ks os = (tr, r) →
      ∀ b i, OSCall.createEvent b i ∈ tr → b = false ∧ i = false) ∧
    (∀ nf ks os tr r, RegistryMonitorAPI.init nf ks os = (tr, r) →
      ∀ b i, OSCall.createEvent b i ∈ tr → b = false ∧ i = false) := by
  constructor
  · intro nf ks os tr r h b i hm
    unfold FileMonitorAPI.init at h
    repeat' split at h
    all_goals
      injection h with h1 h2
    all_goals
      subst h1
    all_goals
      simp [FileMonitorAPI.createFileCall, FileMonitorAPI.setWatcherCall]
        at hm
    all_goals simp_all
  · intro nf ks os tr r h b i hm
    unfold RegistryMonitorAPI.init at h
    repeat' split at h
    all_goals
      injection h with h1 h2
    all_goals
      subst h1
    all_goals
      simp [RegistryMonitorAPI.setWatcherCall] at hm
    all_goals simp_all

/-- C4 amended witness: concrete successful constructions of both
monitors, with the hypotheses discharged at those inputs. -/
theorem C4_auto_reset_events_witness :
    (FileMonitorAPI.init "UnionChange" [("Path", "C:\\Windows")]
        ⟨Except.ok 3, 4, none⟩).1.contains
      (OSCall.createEvent false false) = true ∧
    (false = false ∧ false = false) := by
  constructor
  · rfl
  · exact C4_auto_reset_events.1 "UnionChange" [("Path", "C:\\Windows")]
      ⟨Except.ok 3, 4, none⟩ _ _ rfl false false
      (by simp [FileMonitorAPI.init])

/-- Every exception a `FileMonitorAPI.update` call can raise is the
`TypeError` from the buggy `CloseHandle(self._kwargs['Path'])`, the
`KeyError` of that lookup, or an uncaught `pywintypes.error` escaping
from `GetOverlappedResult`, `GetFinalPathNameByHandle` or the rearm
`ReadDirectoryChangesW`. -/
lemma fileUpdateLoop_raised (os : FileUpdateOracle) (st : FileMonState) :
    ∀ waits tr e st', FileMonitorAPI.updateLoop os st waits
      = (tr, UpdateOutcome.raised e st') →
    e = PyErr.typeError ∨ e = PyErr.keyError "Path" ∨
      ∃ w, e = PyErr.pywintypesError w := by
  intro waits
  induction waits with
  | nil =>
    intro tr e st' h
    simp [FileMonitorAPI.updateLoop] at h
  | cons r rest ih =>
    intro tr e st' h
    cases r with
    | waitObject0 =>
      unfold FileMonitorAPI.updateLoop at h
      simp only at h
      repeat' split at h
      all_goals injection h with h1 h2
      all_goals first
        | exact UpdateOutcome.noConfusion h2
        | (injection h2 with h3 h4
           exact Or.inr (Or.inr ⟨_, h3.symm⟩))
    | waitFailed =>
      unfold FileMonitorAPI.updateLoop FileMonitorAPI.close at h
      cases hl : lookupKw st.kwargs "Path" with
      | none =>
        rw [hl] at h
        simp at h
        exact Or.inr (Or.inl h.2.1.symm)
      | some p =>
        rw [hl] at h
        simp at h
        exact Or.inl h.2.1.symm
    | waitTimeout =>
      unfold FileMonitorAPI.updateLoop at h
      simp only at h
      injection h with h1 h2
      exact ih (FileMonitorAPI.updateLoop os st rest).1 e st' (by rw [← h2])
    | waitAbandoned =>
      unfold FileMonitorAPI.updateLoop at h
      simp only at h
      injection h with h1 h2
      exact ih (FileMonitorAPI.updateLoop os st rest).1 e st' (by rw [← h2])

/-- Every exception a `RegistryMonitorAPI.update` call can raise is the
message-less `RegistryMonitorError()` of the `WAIT_FAILED` branch, a
bare `KeyError` from the `self._kwargs` lookups, or the messaged
`RegistryMonitorError` re-raised by `_set_watcher` when the rearm
fails. -/
lemma regUpdateLoop_raised (os : RegUpdateOracle) (st : RegMonState) :
    ∀ waits tr e st', RegistryMonitorAPI.updateLoop os st waits
      = (tr, UpdateOutcome.raised e st') →
    e = PyErr.registryMonitorError "" ∨ e = PyErr.keyError "Hive" ∨
      e = PyErr.keyError "KeyPath" ∨
      ∃ w, e = PyErr.registryMonitorError (regInvalidParamsMsg w) := by
  intro waits
  induction waits with
  | nil =>
    intro tr e st' h
    simp [RegistryMonitorAPI.updateLoop] at h
  | cons r rest ih =>
    intro tr e st' h
    cases r with
    | waitObject0 =>
      unfold RegistryMonitorAPI.updateLoop at h
      simp only at h
      repeat' split at h
      all_goals injection h with h1 h2
      all_goals first
        | exact UpdateOutcome.noConfusion h2
        | (injection h2 with h3 h4
           first
             | exact Or.inr (Or.inl h3.symm)
             | exact Or.inr (Or.inr (Or.inl h3.symm))
             | exact Or.inr (Or.inr (Or.inr ⟨_, h3.symm⟩)))
    | waitFailed =>
      unfold RegistryMonitorAPI.updateLoop at h
      simp [RegistryMonitorAPI.close] at h
      exact Or.inl h.2.1.symm
    | waitTimeout =>
      unfold RegistryMonitorAPI.updateLoop at h
      simp only at h
      injection h with h1 h2
      exact ih (RegistryMonitorAPI.updateLoop os st rest).1 e st' (by rw [← h2])
    | waitAbandoned =>
      unfold RegistryMonitorAPI.updateLoop at h
      simp only at h
      injection h with h1 h2
      exact ih (RegistryMonitorAPI.updateLoop os st rest).1 e st' (by rw [← h2])

/-- C5: construction-time validation happens before any OS resource is
touched, and the validation error is never raised at `update()` time.
Conjuncts: an invalid kwarg key or filter string makes either `init`
return the validation `FileMonitorError`/`RegistryMonitorError` with an
*empty* OS-call trace; no exception the file monitor's `update()` can
raise is a `FileMonitorError` at all; and no exception the registry
monitor's `update()` can raise equals the invalid-kwargs or any
invalid-filter `RegistryMonitorError` — the update-time
`RegistryMonitorError`s are the message-less one of the `WAIT_FAILED`
branch and the rearm-failure one, whose message is proved distinct from
every validation message. -/
theorem C5_validation_before_os :
    (∀ nf ks os, fileKwargsValid ks = false →
      FileMonitorAPI.init nf ks os =
        ([], Except.error (PyErr.fileMonitorError fileKwargErrMsg))) ∧
    (∀ nf ks os, fileKwargsValid ks = true →
      fileValidNotifyFilters.contains nf = false →
      FileMonitorAPI.init nf ks os =
        ([], Except.error (PyErr.fileMonitorError (fileFilterErrMsg nf)))) ∧
    (∀ nf ks os, regKwargsValid ks = false →
      RegistryMonitorAPI.init nf ks os =
        ([], Except.error (PyErr.registryMonitorError regKwargErrMsg))) ∧
    (∀ nf ks os, regKwargsValid ks = true →
      regValidNotifyFilters.contains nf = false →
      RegistryMonitorAPI.init nf ks os =
        ([], Except.error (PyErr.registryMonitorError (regFilterErrMsg nf)))) ∧
    (∀ waits os st tr e st',
      FileMonitorAPI.update waits os st = (tr, UpdateOutcome.raised e st') →
      ∀ m, e ≠ PyErr.fileMonitorError m) ∧
    (∀ os waits st tr e st',
      RegistryMonitorAPI.update os waits st =
        (tr, UpdateOutcome.raised e st') →
      e ≠ PyErr.registryMonitorError regKwargErrMsg ∧
      ∀ f, e ≠ PyErr.registryMonitorError (regFilterErrMsg f)) := by
  refine ⟨?_, ?_, ?_, ?_, ?_, ?_⟩
  · intro nf ks os h
    simp [FileMonitorAPI.init, h]
  · intro nf ks os h1 h2
    have h2' : ¬ (nf ∈ fileValidNotifyFilters) := by simpa using h2
    simp [FileMonitorAPI.init, h1, h2']
  · intro nf ks os h
    simp [RegistryMonitorAPI.init, h]
  · intro nf ks os h1 h2
    have h2' : ¬ (nf ∈ regValidNotifyFilters) := by simpa using h2
    simp [RegistryMonitorAPI.init, h1, h2']
  · intro waits os st tr e st' h m
    rcases fileUpdateLoop_raised os st waits tr e st' h with h' | h' | ⟨w, h'⟩
      <;> subst h' <;> exact PyErr.noConfusion
  · intro os waits st tr e st' h
    rcases regUpdateLoop_raised os st waits tr e st' h with
      h' | h' | h' | ⟨w, h'⟩ <;> subst h'
    · constructor
      · intro hc
        injection hc with hm
        exact absurd hm (by decide)
      · intro f hc
        injection hc with hm
        exact append_ne_empty_of_right _ _ (by decide) hm.symm
    · exact ⟨fun hc => PyErr.noConfusion hc, fun f hc => PyErr.noConfusion hc⟩
    · exact ⟨fun hc => PyErr.noConfusion hc, fun f hc => PyErr.noConfusion hc⟩
    · constructor
      · intro hc
        injection hc with hm
        exact regInvalidParamsMsg_ne_kwarg w hm
      · intro f hc
        injection hc with hm
        exact regInvalidParamsMsg_ne_filter w f hm

/-- C5 witness: hypotheses discharged at concrete inputs — an unknown
kwarg key for the file monitor, an unknown filter string for the
registry monitor, and a concrete raising `update()` call (rearm failure
after a signal) whose error differs from the validation errors. -/
theorem C5_validation_before_os_witness :
    fileKwargsValid [("Bogus", "x")] = false ∧
    FileMonitorAPI.init "UnionChange" [("Bogus", "x")]
        ⟨Except.ok 3, 4, none⟩ =
      ([], Except.error (PyErr.fileMonitorError fileKwargErrMsg)) ∧
    regKwargsValid [("KeyPath", "SOFTWARE")] = true ∧
    regValidNotifyFilters.contains "Bogus" = false ∧
    RegistryMonitorAPI.init "Bogus" [("KeyPath", "SOFTWARE")]
        ⟨5, Except.ok 6, none⟩ =
      ([], Except.error (PyErr.registryMonitorError (regFilterErrMsg "Bogus"))) ∧
    (PyErr.registryMonitorError (regInvalidParamsMsg 5) ≠
      PyErr.registryMonitorError regKwargErrMsg) := by
  refine ⟨rfl, ?_, rfl, rfl, ?_, ?_⟩
  · exact C5_validation_before_os.1 "UnionChange" [("Bogus", "x")]
      ⟨Except.ok 3, 4, none⟩ rfl
  · exact C5_validation_before_os.2.2.2.1 "Bogus" [("KeyPath", "SOFTWARE")]
      ⟨5, Except.ok 6, none⟩ rfl rfl
  · exact (C5_validation_before_os.2.2.2.2.2 ⟨42, some 5⟩
      [WaitCode.waitObject0]
      { event := 5, key := 6, notifyFilter := "UnionChange",
        kwargs := [("Hive", "HKEY_LOCAL_MACHINE"), ("KeyPath", "SOFTWARE")],
        eventProps := RegEventProps.initial } _ _ _ rfl).1

/-- A normally returning `FileMonitorAPI.update` issued the arm request
as the last OS call of its trace. -/
lemma fileUpdateLoop_ok_ends_armed (os : FileUpdateOracle) (st : FileMonState) :
    ∀ waits tr st', FileMonitorAPI.updateLoop os st waits
      = (tr, UpdateOutcome.ok st') → endsWithFileArm tr = true := by
  intro waits
  induction waits with
  | nil =>
    intro tr st' h
    simp [FileMonitorAPI.updateLoop] at h
  | cons r rest ih =>
    intro tr st' h
    cases r with
    | waitObject0 =>
      unfold FileMonitorAPI.updateLoop at h
      simp only at h
      repeat' split at h
      all_goals injection h with h1 h2
      all_goals first
        | exact UpdateOutcome.noConfusion h2
        | (subst h1; rfl)
    | waitFailed =>
      unfold FileMonitorAPI.updateLoop FileMonitorAPI.close at h
      cases hl : lookupKw st.kwargs "Path" with
      | none => rw [hl] at h; simp at h
      | some p => rw [hl] at h; simp at h
    | waitTimeout =>
      unfold FileMonitorAPI.updateLoop at h
      simp only at h
      injection h with h1 h2
      subst h1
      exact endsWithFileArm_cons _ _
        (ih (FileMonitorAPI.updateLoop os st rest).1 st' (by rw [← h2]))
    | waitAbandoned =>
      unfold FileMonitorAPI.updateLoop at h
      simp only at h
      injection h with h1 h2
      subst h1
      exact endsWithFileArm_cons _ _
        (ih (FileMonitorAPI.updateLoop os st rest).1 st' (by rw [← h2]))

/-- A normally returning `RegistryMonitorAPI.update` issued the arm
request as the last OS call of its trace. -/
lemma regUpdateLoop_ok_ends_armed (os : RegUpdateOracle) (st : RegMonState) :
    ∀ waits tr st', RegistryMonitorAPI.updateLoop os st waits
      = (tr, UpdateOutcome.ok st') → endsWithRegArm tr = true := by
  intro waits
  induction waits with
  | nil =>
    intro tr st' h
    simp [RegistryMonitorAPI.updateLoop] at h
  | cons r rest ih =>
    intro tr st' h
    cases r with
    | waitObject0 =>
      unfold RegistryMonitorAPI.updateLoop at h
      simp only at h
      repeat' split at h
      all_goals injection h with h1 h2
      all_goals first
        | exact UpdateOutcome.noConfusion h2
        | (subst h1; rfl)
    | waitFailed =>
      unfold RegistryMonitorAPI.updateLoop at h
      simp [RegistryMonitorAPI.close] at h
    | waitTimeout =>
      unfold RegistryMonitorAPI.updateLoop at h
      simp only at h
      injection h with h1 h2
      subst h1
      exact endsWithRegArm_cons _ _
        (ih (RegistryMonitorAPI.updateLoop os st rest).1 st' (by rw [← h2]))
    | waitAbandoned =>
      unfold RegistryMonitorAPI.updateLoop at h
      simp only at h
      injection h with h1 h2
      subst h1
      exact endsWithRegArm_cons _ _
        (ih (RegistryMonitorAPI.updateLoop os st rest).1 st' (by rw [← h2]))

/-- C6: the kernel watch request is the last step of construction and of
every successful `update()` — for both monitors, a successful `init`
trace and a successful `update` trace end with the arm call
(`ReadDirectoryChangesW` / `RegNotifyChangeKeyValue`), re-issued inside
every update call that observes a signal. -/
theorem C6_arm_after_init_and_update :
    (∀ nf ks os tr st, FileMonitorAPI.init nf ks os = (tr, Except.ok st) →
      endsWithFileArm tr = true) ∧
    (∀ nf ks os tr st, RegistryMonitorAPI.init nf ks os = (tr, Except.ok st) →
      endsWithRegArm tr = true) ∧
    (∀ waits os st tr st',
      FileMonitorAPI.update waits os st = (tr, UpdateOutcome.ok st') →
      endsWithFileArm tr = true) ∧
    (∀ os waits st tr st',
      RegistryMonitorAPI.update os waits st = (tr, UpdateOutcome.ok st') →
      endsWithRegArm tr = true) := by
  refine ⟨?_, ?_, ?_, ?_⟩
  · intro nf ks os tr st h
    unfold FileMonitorAPI.init at h
    repeat' split at h
    all_goals injection h with h1 h2
    all_goals first
      | exact Except.noConfusion h2
      | (injection h2 with h3; subst h3; subst h1; rfl)
  · intro nf ks os tr st h
    unfold RegistryMonitorAPI.init at h
    repeat' split at h
    all_goals injection h with h1 h2
    all_goals first
      | exact Except.noConfusion h2
      | (injection h2 with h3; subst h3; subst h1; rfl)
  · intro waits os st tr st' h
    exact fileUpdateLoop_ok_ends_armed os st waits tr st' h
  · intro os waits st tr st' h
    exact regUpdateLoop_ok_ends_armed os st waits tr st' h

/-- C6 witness: concrete successful constructions and updates of both
monitors, hypotheses discharged by evaluation. -/
theorem C6_arm_after_init_and_update_witness :
    endsWithFileArm (FileMonitorAPI.init "UnionChange"
      [("Path", "C:\\Windows")] ⟨Except.ok 3, 4, none⟩).1 = true ∧
    endsWithRegArm (RegistryMonitorAPI.init "UnionChange"
      [("Hive", "HKEY_LOCAL_MACHINE"), ("KeyPath", "SOFTWARE")]
      ⟨5, Except.ok 6, none⟩).1 = true ∧
    endsWithFileArm (FileMonitorAPI.update [WaitCode.waitObject0]
      { bytesReturned := Except.ok 16, firstRecordAction := 1,
        firstRecordName := "note.txt", finalPath := Except.ok "C:\\Windows",
        now := 42, armWinerror := none }
      { directory := 3, hEvent := 4, notifyFilter := "UnionChange",
        kwargs := [("Path", "C:\\Windows")], numBytesReturned := 0,
        eventProps := FileEventProps.initial }).1 = true ∧
    endsWithRegArm (RegistryMonitorAPI.update ⟨42, none⟩
      [WaitCode.waitTimeout, WaitCode.waitObject0]
      { event := 5, key := 6, notifyFilter := "UnionChange",
        kwargs := [("Hive", "HKEY_LOCAL_MACHINE"), ("KeyPath", "SOFTWARE")],
        eventProps := RegEventProps.initial }).1 = true := by
  refine ⟨?_, ?_, ?_, ?_⟩
  · exact C6_arm_after_init_and_update.1 "UnionChange"
      [("Path", "C:\\Windows")] ⟨Except.ok 3, 4, none⟩ _ _ rfl
  · exact C6_arm_after_init_and_update.2.1 "UnionChange"
      [("Hive", "HKEY_LOCAL_MACHINE"), ("KeyPath", "SOFTWARE")]
      ⟨5, Except.ok 6, none⟩ _ _ rfl
  · exact C6_arm_after_init_and_update.2.2.1 [WaitCode.waitObject0]
      { bytesReturned := Except.ok 16, firstRecordAction := 1,
        firstRecordName := "note.txt", finalPath := Except.ok "C:\\Windows",
        now := 42, armWinerror := none }
      { directory := 3, hEvent := 4, notifyFilter := "UnionChange",
        kwargs := [("Path", "C:\\Windows")], numBytesReturned := 0,
        eventProps := FileEventProps.initial } _ _ rfl
  · exact C6_arm_after_init_and_update.2.2.2 ⟨42, none⟩
      [WaitCode.waitTimeout, WaitCode.waitObject0]
      { event := 5, key := 6, notifyFilter := "UnionChange",
        kwargs := [("Hive", "HKEY_LOCAL_MACHINE"), ("KeyPath", "SOFTWARE")],
        eventProps := RegEventProps.initial } _ _ rfl

/-- C8: with valid keys and a valid filter, a missing `Path` kwarg makes
`FileMonitorAPI.__init__` raise a bare `KeyError('Path')` (the lookup
happens while building the `CreateFile` arguments, inside a `try` that
only catches `pywintypes.error`); a missing `Hive` or `KeyPath` kwarg
makes `RegistryMonitorAPI.__init__` raise a bare `KeyError('Hive')` /
`KeyError('KeyPath')` (after the event handle is created) — in no case
the module's `FileMonitorError` / `RegistryMonitorError`. -/
theorem C8_missing_kwargs_keyerror :
    (∀ nf ks os, fileKwargsValid ks = true →
      fileValidNotifyFilters.contains nf = true →
      lookupKw ks "Path" = none →
      FileMonitorAPI.init nf ks os =
        ([], Except.error (PyErr.keyError "Path"))) ∧
    (∀ nf ks os, regKwargsValid ks = true →
      regValidNotifyFilters.contains nf = true →
      os.createEventHandle ≠ 0 →
      lookupKw ks "Hive" = none →
      RegistryMonitorAPI.init nf ks os =
        ([OSCall.createEvent false false],
         Except.error (PyErr.keyError "Hive"))) ∧
    (∀ nf ks os hive, regKwargsValid ks = true →
      regValidNotifyFilters.contains nf = true →
      os.createEventHandle ≠ 0 →
      lookupKw ks "Hive" = some hive →
      lookupKw ks "KeyPath" = none →
      RegistryMonitorAPI.init nf ks os =
        ([OSCall.createEvent false false],
         Except.error (PyErr.keyError "KeyPath"))) := by
  refine ⟨?_, ?_, ?_⟩
  · intro nf ks os h1 h2 h3
    have h2' : nf ∈ fileValidNotifyFilters := by simpa using h2
    simp [FileMonitorAPI.init, h1, h2', h3]
  · intro nf ks os h1 h2 h3 h4
    have h2' : nf ∈ regValidNotifyFilters := by simpa using h2
    simp [RegistryMonitorAPI.init, h1, h2', h3, h4]
  · intro nf ks os hive h1 h2 h3 h4 h5
    have h2' : nf ∈ regValidNotifyFilters := by simpa using h2
    simp [RegistryMonitorAPI.init, h1, h2', h3, h4, h5]

/-- C8 witness: concrete constructions missing `Path`, `Hive` and
`KeyPath` respectively, hypotheses discharged by evaluation. -/
theorem C8_missing_kwargs_keyerror_witness :
    FileMonitorAPI.init "UnionChange" [("Drive", "C:")]
        ⟨Except.ok 3, 4, none⟩ =
      ([], Except.error (PyErr.keyError "Path")) ∧
    RegistryMonitorAPI.init "UnionChange" [("KeyPath", "SOFTWARE")]
        ⟨5, Except.ok 6, none⟩ =
      ([OSCall.createEvent false false],
       Except.error (PyErr.keyError "Hive")) ∧
    RegistryMonitorAPI.init "UnionChange" [("Hive", "HKEY_LOCAL_MACHINE")]
        ⟨5, Except.ok 6, none⟩ =
      ([OSCall.createEvent false false],
       Except.error (PyErr.keyError "KeyPath")) := by
  refine ⟨?_, ?_, ?_⟩
  · exact C8_missing_kwargs_keyerror.1 "UnionChange" [("Drive", "C:")]
      ⟨Except.ok 3, 4, none⟩ rfl rfl rfl
  · exact C8_missing_kwargs_keyerror.2.1 "UnionChange"
      [("KeyPath", "SOFTWARE")] ⟨5, Except.ok 6, none⟩ rfl rfl (by decide) rfl
  · exact C8_missing_kwargs_keyerror.2.2 "UnionChange"
      [("Hive", "HKEY_LOCAL_MACHINE")] ⟨5, Except.ok 6, none⟩
      "HKEY_LOCAL_MACHINE" rfl rfl (by decide) rfl rfl

/-- A normally returning `RegistryMonitorAPI.update` rewrites only the
`Hive`, `KeyPath`, `Timestamp` and `EventType` entries of the event dict
and touches no other state field. -/
lemma regUpdateLoop_ok_frame (os : RegUpdateOracle) (st : RegMonState) :
    ∀ waits tr st', RegistryMonitorAPI.updateLoop os st waits
      = (tr, UpdateOutcome.ok st') →
    st'.eventProps.RootPath = st.eventProps.RootPath ∧
    st'.eventProps.ValueName = st.eventProps.ValueName ∧
    st'.event = st.event ∧ st'.key = st.key ∧
    st'.notifyFilter = st.notifyFilter ∧ st'.kwargs = st.kwargs := by
  intro waits
  induction waits with
  | nil =>
    intro tr st' h
    simp [RegistryMonitorAPI.updateLoop] at h
  | cons r rest ih =>
    intro tr st' h
    cases r with
    | waitObject0 =>
      unfold RegistryMonitorAPI.updateLoop at h
      simp only at h
      repeat' split at h
      all_goals injection h with h1 h2
      all_goals first
        | exact UpdateOutcome.noConfusion h2
        | (injection h2 with h3
           subst h3
           exact ⟨rfl, rfl, rfl, rfl, rfl, rfl⟩)
    | waitFailed =>
      unfold RegistryMonitorAPI.updateLoop at h
      simp [RegistryMonitorAPI.close] at h
    | waitTimeout =>
      unfold RegistryMonitorAPI.updateLoop at h
      simp only at h
      injection h with h1 h2
      exact ih (RegistryMonitorAPI.updateLoop os st rest).1 st' (by rw [← h2])
    | waitAbandoned =>
      unfold RegistryMonitorAPI.updateLoop at h
      simp only at h
      injection h with h1 h2
      exact ih (RegistryMonitorAPI.updateLoop os st rest).1 st' (by rw [← h2])

/-- `runUpdates` preserves the never-written `RootPath` and `ValueName`
entries of the event dict. -/
lemma runUpdates_preserves_rootpath_valuename :
    ∀ upds st st', RegistryMonitorAPI.runUpdates upds st = some st' →
    st'.eventProps.RootPath = st.eventProps.RootPath ∧
    st'.eventProps.ValueName = st.eventProps.ValueName := by
  intro upds
  induction upds with
  | nil =>
    intro st st' h
    simp [RegistryMonitorAPI.runUpdates] at h
    subst h
    exact ⟨rfl, rfl⟩
  | cons u rest ih =>
    intro st st' h
    unfold RegistryMonitorAPI.runUpdates at h
    cases hu : (RegistryMonitorAPI.update u.1 u.2 st).2 with
    | ok stm =>
      rw [hu] at h
      have hframe := regUpdateLoop_ok_frame u.1 st u.2
        (RegistryMonitorAPI.update u.1 u.2 st).1 stm
        (by
          have : RegistryMonitorAPI.update u.1 u.2 st =
              ((RegistryMonitorAPI.update u.1 u.2 st).1,
                UpdateOutcome.ok stm) := by
            rw [← hu]
          exact this)
      have hrest := ih stm st' h
      exact ⟨hrest.1.trans hframe.1, hrest.2.trans hframe.2.1⟩
    | raised e stm => rw [hu] at h; simp at h
    | spinning => rw [hu] at h; simp at h

/-- A successful `RegistryMonitorAPI.__init__` starts with the all-`None`
event dict. -/
lemma regInit_ok_props (nf : String) (ks : List (String × String))
    (os : RegInitOracle) (tr : List OSCall) (st : RegMonState)
    (h : RegistryMonitorAPI.init nf ks os = (tr, Except.ok st)) :
    st.eventProps = RegEventProps.initial := by
  unfold RegistryMonitorAPI.init at h
  repeat' split at h
  all_goals injection h with h1 h2
  all_goals first
    | exact Except.noConfusion h2
    | (injection h2 with h3; subst h3; rfl)

/-- C10: a normally returning `RegistryMonitorAPI.update` writes only
`Hive`, `KeyPath`, `Timestamp` and `EventType` (every other state field,
including the `RootPath` and `ValueName` dict entries, is unchanged); and
along any sequence of successful updates from a successful construction,
`RootPath` and `ValueName` keep their initial `None` for the monitor's
lifetime. -/
theorem C10_reg_update_frame :
    (∀ os waits st tr st', RegistryMonitorAPI.update os waits st =
        (tr, UpdateOutcome.ok st') →
      st'.eventProps.RootPath = st.eventProps.RootPath ∧
      st'.eventProps.ValueName = st.eventProps.ValueName ∧
      st'.event = st.event ∧ st'.key = st.key ∧
      st'.notifyFilter = st.notifyFilter ∧ st'.kwargs = st.kwargs) ∧
    (∀ nf ks os tr st0 upds st,
      RegistryMonitorAPI.init nf ks os = (tr, Except.ok st0) →
      RegistryMonitorAPI.runUpdates upds st0 = some st →
      st.eventProps.RootPath = none ∧ st.eventProps.ValueName = none) := by
  constructor
  · intro os waits st tr st' h
    exact regUpdateLoop_ok_frame os st waits tr st' h
  · intro nf ks os tr st0 upds st hinit hrun
    have hprops := regInit_ok_props nf ks os tr st0 hinit
    have hpres := runUpdates_preserves_rootpath_valuename upds st0 st hrun
    rw [hprops] at hpres
    exact ⟨hpres.1, hpres.2⟩

/-- C10 witness: a concrete construction followed by one successful
update, hypotheses discharged by evaluation. -/
theorem C10_reg_update_frame_witness :
    ((RegistryMonitorAPI.runUpdates [(⟨42, none⟩, [WaitCode.waitObject0])]
      { event := 5, key := 6, notifyFilter := "UnionChange",
        kwargs := [("Hive", "HKEY_LOCAL_MACHINE"), ("KeyPath", "SOFTWARE")],
        eventProps := RegEventProps.initial }).isSome = true) ∧
    (none : Option String) = none ∧ (none : Option String) = none := by
  refine ⟨rfl, ?_⟩
  exact C10_reg_update_frame.2 "UnionChange"
    [("Hive", "HKEY_LOCAL_MACHINE"), ("KeyPath", "SOFTWARE")]
    ⟨5, Except.ok 6, none⟩ _ _ [(⟨42, none⟩, [WaitCode.waitObject0])] _ rfl rfl
